import Mathlib

/-!
Shallow embedding of the QFD scoring and classification engine of
jcalixte/qfd-builder.

Sources embedded here:
- the calculation module: the enums `RelationshipStrength` and
  `CorrelationType` and the record types from `src/types/qfd.ts`, and the
  functions `calculateTechnicalPriorities`, `calculateTargetImpact`,
  `getImplementationChallenge`, `getStrategicImportance`,
  `getCorrelationImpact`, `getTargetRecommendation`,
  `calculateCorrelationImpact`, `normalizeWeights` and
  `getCorrelationRecommendation`;
- the pure state update inside `updateCorrelation` from
  `src/hooks/useQFDData.ts`.

Numbers that the TypeScript source holds as `number` are modelled as `Rat`
(exact arithmetic); the source literal `0.3` becomes `3 / 10`.
-/

namespace QFD

/-- Enum from src/types/qfd.ts: NONE = 0, WEAK = 1, MEDIUM = 3, STRONG = 9. -/
inductive RelationshipStrength where
  | NONE
  | WEAK
  | MEDIUM
  | STRONG
deriving DecidableEq, Repr

/-- Numeric value of the `RelationshipStrength` enum member. -/
def RelationshipStrength.val : RelationshipStrength → ℚ
  | .NONE => 0
  | .WEAK => 1
  | .MEDIUM => 3
  | .STRONG => 9

/-- Enum from src/types/qfd.ts: NONE = 0, POSITIVE = 1, STRONG_POSITIVE = 2,
NEGATIVE = -1, STRONG_NEGATIVE = -2. -/
inductive CorrelationType where
  | NONE
  | POSITIVE
  | STRONG_POSITIVE
  | NEGATIVE
  | STRONG_NEGATIVE
deriving DecidableEq, Repr

/-- Record from src/types/qfd.ts (`competitorRatings` kept for fidelity;
the engine never reads it). -/
structure CustomerRequirement where
  id : String
  description : String
  importance : ℚ
  competitorRatings : List ℚ
deriving DecidableEq, Repr

/-- Record from src/types/qfd.ts. -/
structure TechnicalRequirement where
  id : String
  description : String
  unit : String
  target : String
  difficulty : ℚ
deriving DecidableEq, Repr

/-- Record from src/types/qfd.ts. -/
structure Relationship where
  customerReqId : String
  technicalReqId : String
  strength : RelationshipStrength
deriving DecidableEq, Repr

/-- Record from src/types/qfd.ts. -/
structure TechnicalCorrelation where
  techReq1Id : String
  techReq2Id : String
  correlation : CorrelationType
deriving DecidableEq, Repr

/-- Input snapshot shape from src/types/qfd.ts. -/
structure QFDData where
  customerRequirements : List CustomerRequirement
  technicalRequirements : List TechnicalRequirement
  relationships : List Relationship
  technicalCorrelations : List TechnicalCorrelation
  competitorNames : List String
deriving DecidableEq, Repr

/-- Derived record from src/types/qfd.ts. -/
structure TechnicalPriority where
  id : String
  description : String
  score : ℚ
  relativeWeight : ℚ
deriving DecidableEq, Repr

/-- Band literals of the union type Low | Medium | High | Critical. -/
inductive Band where
  | Low
  | Medium
  | High
  | Critical
deriving DecidableEq, Repr

/-- Ordinal rank of a band, with Low < Medium < High < Critical. -/
def Band.rank : Band → Nat
  | .Low => 0
  | .Medium => 1
  | .High => 2
  | .Critical => 3

/-- Impact literals of the union type Isolated | Synergistic | Conflicted |
Complex. -/
inductive ImpactLabel where
  | Isolated
  | Synergistic
  | Conflicted
  | Complex
deriving DecidableEq, Repr

/-- Derived record from src/types/qfd.ts. -/
structure CorrelationImpactSummary where
  totalCorrelations : Nat
  positiveCount : Nat
  negativeCount : Nat
  netImpact : Int
  impact : ImpactLabel
deriving DecidableEq, Repr

/-- Derived record from src/types/qfd.ts. -/
structure CorrelationInsight where
  req1 : String
  req2 : String
  correlation : CorrelationType
  priority1Score : ℚ
  priority2Score : ℚ
  impact : String
  recommendation : String
deriving DecidableEq, Repr

/-- Derived record from src/types/qfd.ts. -/
structure TargetImpactAnalysis where
  id : String
  description : String
  target : String
  unit : String
  difficulty : ℚ
  priorityScore : ℚ
  normalizedPriority : ℚ
  implementationChallenge : Band
  strategicImportance : Band
  correlationImpact : CorrelationImpactSummary
  recommendation : String
deriving DecidableEq, Repr

/-- Embedding of `calculateTechnicalPriorities`: one `TechnicalPriority`
per technical requirement, scored by folding importance times relationship
strength over the customer requirements; a missing relationship record
contributes `RelationshipStrength.NONE` (value 0). -/
def calculateTechnicalPriorities (data : QFDData) : List TechnicalPriority :=
  data.technicalRequirements.map fun techReq =>
    let score := data.customerRequirements.foldl
      (fun sum custReq =>
        let relationship := data.relationships.find?
          (fun r => r.customerReqId == custReq.id && r.technicalReqId == techReq.id)
        let relationshipValue := match relationship with
          | some r => r.strength.val
          | Option.none => RelationshipStrength.NONE.val
        sum + custReq.importance * relationshipValue) 0
    { id := techReq.id
      description := techReq.description
      score := score
      relativeWeight := 0 }

/-- Embedding of `normalizeWeights`: scale each score to a percentage of
the total, returning the input unchanged when the total is 0. -/
def normalizeWeights (priorities : List TechnicalPriority) : List TechnicalPriority :=
  let totalScore := priorities.foldl (fun sum p => sum + p.score) 0
  if totalScore = 0 then priorities
  else priorities.map fun p => { p with relativeWeight := p.score / totalScore * 100 }

/-- Embedding of `getImplementationChallenge`: band the weighted sum of
difficulty and priority. The source literal 0.3 is the exact `3 / 10`. -/
def getImplementationChallenge (difficulty : ℚ) (priority : ℚ) : Band :=
  let challengeScore := difficulty * 20 + priority * (3 / 10)
  if challengeScore > 80 then .Critical
  else if challengeScore > 60 then .High
  else if challengeScore > 40 then .Medium
  else .Low

/-- Embedding of `getStrategicImportance`: branch on priority thresholds,
escalating on difficulty within the top two bands. -/
def getStrategicImportance (priority : ℚ) (difficulty : ℚ) : Band :=
  if priority > 70 then
    if difficulty ≥ 4 then .Critical else .High
  else if priority > 40 then
    if difficulty ≥ 4 then .High else .Medium
  else if priority > 20 then .Medium
  else .Low

/-- Accumulator for the four counters that `getCorrelationImpact` mutates
inside its forEach loop. -/
structure CorrCounts where
  positiveCount : Nat
  negativeCount : Nat
  strongPositiveCount : Nat
  strongNegativeCount : Nat
deriving DecidableEq, Repr

/-- Body of the forEach/switch loop of `getCorrelationImpact`. -/
def tallyStep (acc : CorrCounts) (corr : TechnicalCorrelation) : CorrCounts :=
  match corr.correlation with
  | .STRONG_POSITIVE => { acc with strongPositiveCount := acc.strongPositiveCount + 1 }
  | .POSITIVE => { acc with positiveCount := acc.positiveCount + 1 }
  | .NEGATIVE => { acc with negativeCount := acc.negativeCount + 1 }
  | .STRONG_NEGATIVE => { acc with strongNegativeCount := acc.strongNegativeCount + 1 }
  | .NONE => acc

/-- The forEach/switch loop of `getCorrelationImpact`, as a fold. -/
def tallyCorrelations (correlations : List TechnicalCorrelation) : CorrCounts :=
  correlations.foldl tallyStep ⟨0, 0, 0, 0⟩

/-- Embedding of `getCorrelationImpact`. The source also receives the
technical requirement and priority lists and never reads them; the unused
parameters are kept for fidelity. -/
def getCorrelationImpact (correlations : List TechnicalCorrelation)
    (_techReqs : List TechnicalRequirement) (_priorities : List TechnicalPriority) :
    CorrelationImpactSummary :=
  let c := tallyCorrelations correlations
  let totalCorrelations := correlations.length
  let netPositive : Int :=
    ((c.strongPositiveCount : Int) * 2 + c.positiveCount) -
      ((c.strongNegativeCount : Int) * 2 + c.negativeCount)
  let impact : ImpactLabel :=
    if totalCorrelations = 0 then .Isolated
    else if netPositive > 1 then .Synergistic
    else if netPositive < -1 then .Conflicted
    else .Complex
  { totalCorrelations := totalCorrelations
    positiveCount := c.positiveCount + c.strongPositiveCount
    negativeCount := c.negativeCount + c.strongNegativeCount
    netImpact := netPositive
    impact := impact }

/-- Embedding of `getTargetRecommendation`: a priority-ordered decision
list over priority, difficulty and the correlation counts. -/
def getTargetRecommendation (priority : ℚ) (difficulty : ℚ)
    (correlationImpact : CorrelationImpactSummary) : String :=
  let isHighPriority := priority > 50
  let isHighDifficulty := difficulty ≥ 4
  let hasPositiveCorrelations := correlationImpact.positiveCount > 0
  let hasNegativeCorrelations := correlationImpact.negativeCount > 0
  if isHighPriority ∧ isHighDifficulty ∧ hasNegativeCorrelations then
    "CRITICAL: High-priority, difficult target with conflicts. Consider phased approach or alternative solutions."
  else if isHighPriority ∧ hasPositiveCorrelations then
    "OPPORTUNITY: High-priority target with synergies. Bundle with correlated requirements for efficiency."
  else if isHighPriority ∧ isHighDifficulty then
    "FOCUS: High-priority but challenging target. Allocate experienced resources and consider risk mitigation."
  else if isHighPriority then
    "PRIORITY: Important target with manageable complexity. Good candidate for early implementation."
  else if hasPositiveCorrelations then
    "SYNERGY: Consider implementing alongside correlated high-priority requirements."
  else if hasNegativeCorrelations then
    "CAUTION: Monitor trade-offs with other requirements during implementation."
  else
    "STANDARD: Can be implemented independently with normal resource allocation."

/-- Embedding of `calculateTargetImpact`: normalize each raw score against
the maximum score (floored at 1 by the extra argument to Math.max), then
classify and recommend. -/
def calculateTargetImpact (data : QFDData) : List TargetImpactAnalysis :=
  let priorities := calculateTechnicalPriorities data
  let maxScore := (priorities.map fun p => p.score).foldl max 1
  data.technicalRequirements.map fun techReq =>
    let priorityScore :=
      ((priorities.find? (fun p => p.id == techReq.id)).map fun p => p.score).getD 0
    let normalizedPriority := priorityScore / maxScore * 100
    let implementationChallenge := getImplementationChallenge techReq.difficulty normalizedPriority
    let strategicImportance := getStrategicImportance normalizedPriority techReq.difficulty
    let correlations := data.technicalCorrelations.filter
      (fun corr => corr.techReq1Id == techReq.id || corr.techReq2Id == techReq.id)
    let correlationImpact := getCorrelationImpact correlations data.technicalRequirements priorities
    { id := techReq.id
      description := techReq.description
      target := techReq.target
      unit := techReq.unit
      difficulty := techReq.difficulty
      priorityScore := priorityScore
      normalizedPriority := normalizedPriority
      implementationChallenge := implementationChallenge
      strategicImportance := strategicImportance
      correlationImpact := correlationImpact
      recommendation := getTargetRecommendation normalizedPriority techReq.difficulty correlationImpact }

/-- Embedding of `getCorrelationImpactDescription`: a fixed description per
correlation value (the higher/lower score locals of the source are unused
there and omitted). -/
def getCorrelationImpactDescription (correlation : CorrelationType)
    (_score1 _score2 : ℚ) : String :=
  match correlation with
  | .STRONG_POSITIVE =>
      "Strong synergy: Working on one requirement significantly helps the other. Combined impact is amplified."
  | .POSITIVE =>
      "Positive synergy: Improvements in one requirement help the other. Look for combined solutions."
  | .NEGATIVE =>
      "Trade-off exists: Improving one may compromise the other. Balance is needed."
  | .STRONG_NEGATIVE =>
      "Strong trade-off: Significant conflict between requirements. Careful optimization required."
  | .NONE =>
      "No significant interaction between these requirements."

/-- Embedding of `getCorrelationRecommendation`: per correlation value,
pick the urgent or the calm message depending on the sum of the two raw
scores against a value-specific threshold. -/
def getCorrelationRecommendation (correlation : CorrelationType)
    (score1 score2 : ℚ) : String :=
  let totalScore := score1 + score2
  match correlation with
  | .STRONG_POSITIVE =>
      if totalScore > 50 then
        "HIGH PRIORITY: Focus on solutions that address both requirements simultaneously for maximum impact."
      else
        "Consider bundling these requirements in your development approach."
  | .POSITIVE =>
      if totalScore > 40 then
        "Look for integrated solutions that can improve both requirements together."
      else
        "Moderate synergy - consider combined approaches when possible."
  | .NEGATIVE =>
      if totalScore > 60 then
        "CRITICAL: High-priority requirements in conflict. Develop compromise solutions or phased approach."
      else
        "Monitor trade-offs carefully during implementation."
  | .STRONG_NEGATIVE =>
      if totalScore > 50 then
        "URGENT: Strong conflict between important requirements. Consider alternative approaches or accept trade-offs."
      else
        "Strong conflict exists - may need to prioritize one over the other."
  | .NONE =>
      "Requirements can be addressed independently."

/-- Embedding of `calculateCorrelationImpact`: base priorities plus one
`CorrelationInsight` per correlation record whose endpoints resolve (the
forEach push becomes a fold appending to the accumulator). -/
def calculateCorrelationImpact (data : QFDData) :
    List TechnicalPriority × List CorrelationInsight :=
  let basePriorities := calculateTechnicalPriorities data
  let correlationInsights := data.technicalCorrelations.foldl
    (fun acc corr =>
      match data.technicalRequirements.find? (fun r => r.id == corr.techReq1Id),
            data.technicalRequirements.find? (fun r => r.id == corr.techReq2Id),
            basePriorities.find? (fun p => p.id == corr.techReq1Id),
            basePriorities.find? (fun p => p.id == corr.techReq2Id) with
      | some req1, some req2, some priority1, some priority2 =>
          acc ++ [{ req1 := req1.description
                    req2 := req2.description
                    correlation := corr.correlation
                    priority1Score := priority1.score
                    priority2Score := priority2.score
                    impact := getCorrelationImpactDescription corr.correlation priority1.score priority2.score
                    recommendation := getCorrelationRecommendation corr.correlation priority1.score priority2.score }]
      | _, _, _, _ => acc)
    []
  (basePriorities, correlationInsights)

/-- The two-element `[techReq1Id, techReq2Id].sort()` of the source:
lexicographically smaller identifier first. -/
def sortPair (a b : String) : String × String :=
  if a ≤ b then (a, b) else (b, a)

/-- The findIndex predicate of `updateCorrelation`: does the stored record
carry the unordered pair, in either orientation. -/
def pairMatches (corr : TechnicalCorrelation) (techReq1Id techReq2Id : String) : Bool :=
  (corr.techReq1Id == techReq1Id && corr.techReq2Id == techReq2Id) ||
  (corr.techReq1Id == techReq2Id && corr.techReq2Id == techReq1Id)

/-- Embedding of the pure state transition inside `updateCorrelation`
(src/hooks/useQFDData.ts): find a record matching the unordered pair; on
NONE delete it, otherwise overwrite it (or append) with the canonically
ordered pair. -/
def updateCorrelation (prev : List TechnicalCorrelation)
    (techReq1Id techReq2Id : String) (correlation : CorrelationType) :
    List TechnicalCorrelation :=
  let existingCorrIndex := prev.findIdx?
    (fun corr => pairMatches corr techReq1Id techReq2Id)
  if correlation = .NONE then
    match existingCorrIndex with
    | some i => prev.eraseIdx i
    | Option.none => prev
  else
    let p := sortPair techReq1Id techReq2Id
    let newCorr : TechnicalCorrelation :=
      { techReq1Id := p.1, techReq2Id := p.2, correlation := correlation }
    match existingCorrIndex with
    | some i => prev.set i newCorr
    | Option.none => prev ++ [newCorr]

/-! Helper lemmas shared by the claim theorems. -/

/-- Folding addition of a projected value equals the initial value plus the
sum of the projections. -/
theorem foldl_add_eq_sum {α : Type} (f : α → ℚ) (l : List α) (init : ℚ) :
    l.foldl (fun s a => s + f a) init = init + (l.map f).sum := by
  induction l generalizing init with
  | nil => simp
  | cons a l ih => simp [List.foldl_cons, ih, add_assoc]

/-- Distributing division and scaling over the sum of scores. -/
theorem sum_map_div_mul (l : List TechnicalPriority) (t : ℚ) :
    (l.map fun p => p.score / t * 100).sum = (l.map fun p => p.score).sum / t * 100 := by
  induction l with
  | nil => simp
  | cons a l ih =>
      simp only [List.map_cons, List.sum_cons, ih]
      ring

/-- Number of correlation records carrying a given correlation value. -/
def countCorr (correlations : List TechnicalCorrelation) (t : CorrelationType) : Nat :=
  (correlations.filter fun c => c.correlation == t).length

/-- Strength of the relationship record for a (customer, technical) pair,
0 when no record exists; this is the per-pair summand of the spec score
formula. -/
def lookupStrength (relationships : List Relationship) (custId techId : String) : ℚ :=
  match relationships.find? (fun r => r.customerReqId == custId && r.technicalReqId == techId) with
  | some r => r.strength.val
  | Option.none => 0

/-! Theorems settling the claims. -/

/-- C5: the Implementation Challenge band is computed from
challengeScore = difficulty times 20 plus normalizedPriority times 0.3 and
banded as Critical above 80, High above 60, Medium above 40, else Low; in
particular difficulty 3 with normalizedPriority 100 (challengeScore 90) is
Critical. -/
theorem getImplementationChallenge_spec (d p : ℚ) :
    (d * 20 + p * (3 / 10) > 80 → getImplementationChallenge d p = .Critical) ∧
    (60 < d * 20 + p * (3 / 10) → d * 20 + p * (3 / 10) ≤ 80 →
      getImplementationChallenge d p = .High) ∧
    (40 < d * 20 + p * (3 / 10) → d * 20 + p * (3 / 10) ≤ 60 →
      getImplementationChallenge d p = .Medium) ∧
    (d * 20 + p * (3 / 10) ≤ 40 → getImplementationChallenge d p = .Low) ∧
    getImplementationChallenge 3 100 = .Critical := by
  refine ⟨?_, ?_, ?_, ?_, by norm_num [getImplementationChallenge]⟩ <;>
    (intros; simp only [getImplementationChallenge]; split_ifs <;> first | rfl | linarith)

/-- Witness for C5 at difficulty 5, priority 100. -/
theorem getImplementationChallenge_spec_witness :
    getImplementationChallenge 5 100 = .Critical :=
  (getImplementationChallenge_spec 5 100).1 (by norm_num)

/-- C6: the Strategic Importance band follows the exact table on the
normalizedPriority thresholds 70, 40 and 20, escalating on difficulty at
least 4 within the top two bands. -/
theorem getStrategicImportance_spec (p d : ℚ) :
    (p > 70 → d ≥ 4 → getStrategicImportance p d = .Critical) ∧
    (p > 70 → d < 4 → getStrategicImportance p d = .High) ∧
    (40 < p → p ≤ 70 → d ≥ 4 → getStrategicImportance p d = .High) ∧
    (40 < p → p ≤ 70 → d < 4 → getStrategicImportance p d = .Medium) ∧
    (20 < p → p ≤ 40 → getStrategicImportance p d = .Medium) ∧
    (p ≤ 20 → getStrategicImportance p d = .Low) := by
  refine ⟨?_, ?_, ?_, ?_, ?_, ?_⟩ <;>
    (intros; simp only [getStrategicImportance]; split_ifs <;> first | rfl | linarith)

/-- Witness for C6 at priority 80, difficulty 4. -/
theorem getStrategicImportance_spec_witness :
    getStrategicImportance 80 4 = .Critical :=
  (getStrategicImportance_spec 80 4).1 (by norm_num) (by norm_num)

/-- C7: the per-pair recommendation depends on whether the sum of the two
raw scores crosses the value-specific threshold (50 for strong-positive,
40 for positive, 60 for negative, 50 for strong-negative); in particular a
StrongPositive pair with scores 30 and 25 yields the HIGH PRIORITY
message. -/
theorem getCorrelationRecommendation_spec (s1 s2 : ℚ) :
    (s1 + s2 > 50 → getCorrelationRecommendation .STRONG_POSITIVE s1 s2 =
      "HIGH PRIORITY: Focus on solutions that address both requirements simultaneously for maximum impact.") ∧
    (s1 + s2 ≤ 50 → getCorrelationRecommendation .STRONG_POSITIVE s1 s2 =
      "Consider bundling these requirements in your development approach.") ∧
    (s1 + s2 > 40 → getCorrelationRecommendation .POSITIVE s1 s2 =
      "Look for integrated solutions that can improve both requirements together.") ∧
    (s1 + s2 ≤ 40 → getCorrelationRecommendation .POSITIVE s1 s2 =
      "Moderate synergy - consider combined approaches when possible.") ∧
    (s1 + s2 > 60 → getCorrelationRecommendation .NEGATIVE s1 s2 =
      "CRITICAL: High-priority requirements in conflict. Develop compromise solutions or phased approach.") ∧
    (s1 + s2 ≤ 60 → getCorrelationRecommendation .NEGATIVE s1 s2 =
      "Monitor trade-offs carefully during implementation.") ∧
    (s1 + s2 > 50 → getCorrelationRecommendation .STRONG_NEGATIVE s1 s2 =
      "URGENT: Strong conflict between important requirements. Consider alternative approaches or accept trade-offs.") ∧
    (s1 + s2 ≤ 50 → getCorrelationRecommendation .STRONG_NEGATIVE s1 s2 =
      "Strong conflict exists - may need to prioritize one over the other.") ∧
    getCorrelationRecommendation .STRONG_POSITIVE 30 25 =
      "HIGH PRIORITY: Focus on solutions that address both requirements simultaneously for maximum impact." := by
  refine ⟨?_, ?_, ?_, ?_, ?_, ?_, ?_, ?_, by norm_num [getCorrelationRecommendation]⟩ <;>
    (intros; simp only [getCorrelationRecommendation]
     split_ifs <;> first | rfl | linarith)

/-- Witness for C7 at scores 30 and 25. -/
theorem getCorrelationRecommendation_spec_witness :
    getCorrelationRecommendation .STRONG_POSITIVE 30 25 =
      "HIGH PRIORITY: Focus on solutions that address both requirements simultaneously for maximum impact." :=
  (getCorrelationRecommendation_spec 30 25).1 (by norm_num)

/-- C8: with difficulty fixed, both classifier bands are monotone in
normalizedPriority under the ordering Low, Medium, High, Critical. -/
theorem classifier_monotone (d p1 p2 : ℚ) (h : p1 ≤ p2) :
    (getImplementationChallenge d p1).rank ≤ (getImplementationChallenge d p2).rank ∧
    (getStrategicImportance p1 d).rank ≤ (getStrategicImportance p2 d).rank := by
  constructor
  · simp only [getImplementationChallenge]
    split_ifs <;> simp [Band.rank] <;> linarith
  · simp only [getStrategicImportance]
    split_ifs <;> simp [Band.rank] <;> linarith

/-- Witness for C8 at difficulty 3, priorities 10 and 90. -/
theorem classifier_monotone_witness :
    (getImplementationChallenge 3 10).rank ≤ (getImplementationChallenge 3 90).rank ∧
    (getStrategicImportance 10 3).rank ≤ (getStrategicImportance 90 3).rank :=
  classifier_monotone 3 10 90 (by norm_num)

/-- C4: the per-requirement recommendation follows the strict
priority-ordered decision list over high priority (normalizedPriority
above 50), high difficulty (difficulty at least 4) and the positive and
negative correlation counts. -/
theorem getTargetRecommendation_spec (p d : ℚ) (ci : CorrelationImpactSummary) :
    (p > 50 → d ≥ 4 → 0 < ci.negativeCount →
      getTargetRecommendation p d ci =
        "CRITICAL: High-priority, difficult target with conflicts. Consider phased approach or alternative solutions.") ∧
    (p > 50 → 0 < ci.positiveCount → ¬(d ≥ 4 ∧ 0 < ci.negativeCount) →
      getTargetRecommendation p d ci =
        "OPPORTUNITY: High-priority target with synergies. Bundle with correlated requirements for efficiency.") ∧
    (p > 50 → d ≥ 4 → ci.negativeCount = 0 → ci.positiveCount = 0 →
      getTargetRecommendation p d ci =
        "FOCUS: High-priority but challenging target. Allocate experienced resources and consider risk mitigation.") ∧
    (p > 50 → d < 4 → ci.positiveCount = 0 →
      getTargetRecommendation p d ci =
        "PRIORITY: Important target with manageable complexity. Good candidate for early implementation.") ∧
    (p ≤ 50 → 0 < ci.positiveCount →
      getTargetRecommendation p d ci =
        "SYNERGY: Consider implementing alongside correlated high-priority requirements.") ∧
    (p ≤ 50 → ci.positiveCount = 0 → 0 < ci.negativeCount →
      getTargetRecommendation p d ci =
        "CAUTION: Monitor trade-offs with other requirements during implementation.") ∧
    (p ≤ 50 → ci.positiveCount = 0 → ci.negativeCount = 0 →
      getTargetRecommendation p d ci =
        "STANDARD: Can be implemented independently with normal resource allocation.") := by
  refine ⟨?_, ?_, ?_, ?_, ?_, ?_, ?_⟩
  · intro hp hd hneg
    simp only [getTargetRecommendation]
    rw [if_pos ⟨hp, hd, hneg⟩]
  · intro hp hpos hnot
    simp only [getTargetRecommendation]
    rw [if_neg (fun h => hnot ⟨h.2.1, h.2.2⟩), if_pos ⟨hp, hpos⟩]
  · intro hp hd hneg hpos
    simp only [getTargetRecommendation]
    rw [if_neg (fun h => absurd h.2.2 (by omega)),
        if_neg (fun h => absurd h.2 (by omega)),
        if_pos ⟨hp, hd⟩]
  · intro hp hd hpos
    simp only [getTargetRecommendation]
    rw [if_neg (fun h => absurd h.2.1 (not_le.mpr hd)),
        if_neg (fun h => absurd h.2 (by omega)),
        if_neg (fun h => absurd h.2 (not_le.mpr hd)),
        if_pos hp]
  · intro hple hpos
    simp only [getTargetRecommendation]
    rw [if_neg (fun h => absurd h.1 (not_lt.mpr hple)),
        if_neg (fun h => absurd h.1 (not_lt.mpr hple)),
        if_neg (fun h => absurd h.1 (not_lt.mpr hple)),
        if_neg (not_lt.mpr hple),
        if_pos hpos]
  · intro hple hpos hneg
    simp only [getTargetRecommendation]
    rw [if_neg (fun h => absurd h.1 (not_lt.mpr hple)),
        if_neg (fun h => absurd h.1 (not_lt.mpr hple)),
        if_neg (fun h => absurd h.1 (not_lt.mpr hple)),
        if_neg (not_lt.mpr hple),
        if_neg (by omega),
        if_pos hneg]
  · intro hple hpos hneg
    simp only [getTargetRecommendation]
    rw [if_neg (fun h => absurd h.1 (not_lt.mpr hple)),
        if_neg (fun h => absurd h.1 (not_lt.mpr hple)),
        if_neg (fun h => absurd h.1 (not_lt.mpr hple)),
        if_neg (not_lt.mpr hple),
        if_neg (by omega),
        if_neg (by omega)]

/-- Witness for C4: a high-priority, high-difficulty requirement with one
negative correlation partner gets the critical/phased message. -/
theorem getTargetRecommendation_spec_witness :
    getTargetRecommendation 60 4 ⟨1, 0, 1, -2, .Conflicted⟩ =
      "CRITICAL: High-priority, difficult target with conflicts. Consider phased approach or alternative solutions." :=
  (getTargetRecommendation_spec 60 4 ⟨1, 0, 1, -2, .Conflicted⟩).1
    (by norm_num) (by norm_num) (by norm_num)

/-- C2: with a positive total score, normalizeWeights keeps the order and
all fields except relativeWeight, sets relativeWeight to
score / totalScore times 100, and the relativeWeights sum to exactly 100;
with total score 0 the input is returned unchanged (so relativeWeights
that were 0 stay 0) and no division by zero occurs. -/
theorem normalizeWeights_spec (priorities : List TechnicalPriority) :
    (0 < priorities.foldl (fun sum p => sum + p.score) 0 →
      (normalizeWeights priorities).length = priorities.length ∧
      (∀ i : Nat, (normalizeWeights priorities)[i]? =
        (priorities[i]?).map fun q =>
          { q with relativeWeight := q.score /
              priorities.foldl (fun sum p => sum + p.score) 0 * 100 }) ∧
      ((normalizeWeights priorities).map fun p => p.relativeWeight).sum = 100) ∧
    (priorities.foldl (fun sum p => sum + p.score) 0 = 0 →
      normalizeWeights priorities = priorities) := by
  constructor
  · intro hpos
    have hne : priorities.foldl (fun sum p => sum + p.score) 0 ≠ 0 := ne_of_gt hpos
    have hsum : (priorities.map fun p => p.score).sum =
        priorities.foldl (fun sum p => sum + p.score) 0 := by
      rw [foldl_add_eq_sum (fun p => p.score) priorities 0, zero_add]
    have hlist : normalizeWeights priorities = priorities.map fun p =>
        { p with relativeWeight := p.score /
            priorities.foldl (fun sum p => sum + p.score) 0 * 100 } := by
      simp only [normalizeWeights, if_neg hne]
    refine ⟨?_, ?_, ?_⟩
    · rw [hlist, List.length_map]
    · intro i
      rw [hlist, List.getElem?_map]
    · rw [hlist, List.map_map, Function.comp_def]
      rw [sum_map_div_mul, hsum, div_self hne, one_mul]
  · intro hzero
    simp only [normalizeWeights, if_pos hzero]

/-- Witness for C2: scores 60 and 40 normalize to weights 60 and 40, which
sum to 100. -/
theorem normalizeWeights_spec_witness :
    ((normalizeWeights [⟨"a", "", 60, 0⟩, ⟨"b", "", 40, 0⟩]).map
      fun p => p.relativeWeight).sum = 100 :=
  ((normalizeWeights_spec [⟨"a", "", 60, 0⟩, ⟨"b", "", 40, 0⟩]).1 (by norm_num)).2.2

/-- C1: calculateTechnicalPriorities yields one TechnicalPriority per
technical requirement, in input order, with score equal to the sum over
customer requirements of importance times the looked-up relationship
strength (0 when no record exists) and relativeWeight 0. -/
theorem calculateTechnicalPriorities_spec (data : QFDData) :
    (calculateTechnicalPriorities data).length = data.technicalRequirements.length ∧
    ∀ i : Nat, (calculateTechnicalPriorities data)[i]? =
      (data.technicalRequirements[i]?).map fun t =>
        { id := t.id
          description := t.description
          score := (data.customerRequirements.map fun c =>
            c.importance * lookupStrength data.relationships c.id t.id).sum
          relativeWeight := 0 } := by
  constructor
  · simp [calculateTechnicalPriorities]
  · intro i
    simp only [calculateTechnicalPriorities, List.getElem?_map]
    cases h : data.technicalRequirements[i]? with
    | none => rfl
    | some t =>
        have hfold := foldl_add_eq_sum
          (fun c => c.importance * lookupStrength data.relationships c.id t.id)
          data.customerRequirements 0
        rw [zero_add] at hfold
        exact congrArg (fun s => some (TechnicalPriority.mk t.id t.description s 0)) hfold

/-- Folding `tallyStep` from any accumulator adds the per-value counts. -/
theorem foldl_tallyStep (cs : List TechnicalCorrelation) (acc : CorrCounts) :
    cs.foldl tallyStep acc =
      { positiveCount := acc.positiveCount + countCorr cs .POSITIVE
        negativeCount := acc.negativeCount + countCorr cs .NEGATIVE
        strongPositiveCount := acc.strongPositiveCount + countCorr cs .STRONG_POSITIVE
        strongNegativeCount := acc.strongNegativeCount + countCorr cs .STRONG_NEGATIVE } := by
  induction cs generalizing acc with
  | nil => simp [countCorr]
  | cons c cs ih =>
      rw [List.foldl_cons, ih]
      cases hc : c.correlation <;>
        simp [tallyStep, hc, countCorr, List.filter_cons, CorrCounts.mk.injEq] <;> omega

/-- The four counters of `tallyCorrelations` are the per-value counts. -/
theorem tallyCorrelations_eq (cs : List TechnicalCorrelation) :
    tallyCorrelations cs =
      { positiveCount := countCorr cs .POSITIVE
        negativeCount := countCorr cs .NEGATIVE
        strongPositiveCount := countCorr cs .STRONG_POSITIVE
        strongNegativeCount := countCorr cs .STRONG_NEGATIVE } := by
  rw [tallyCorrelations, foldl_tallyStep]
  simp

/-- C3: the correlation impact summary has
netImpact = (2 strongPositive + positive) - (2 strongNegative + negative),
is Isolated exactly on zero correlation records (where both exposed counts
are 0), and otherwise is Synergistic above net 1, Conflicted below net -1,
and Complex in between. -/
theorem getCorrelationImpact_spec (cs : List TechnicalCorrelation)
    (techReqs : List TechnicalRequirement) (priorities : List TechnicalPriority) :
    (getCorrelationImpact cs techReqs priorities).netImpact =
        (2 * (countCorr cs .STRONG_POSITIVE : Int) + countCorr cs .POSITIVE) -
        (2 * (countCorr cs .STRONG_NEGATIVE : Int) + countCorr cs .NEGATIVE) ∧
    ((getCorrelationImpact cs techReqs priorities).impact = .Isolated ↔ cs = []) ∧
    (cs = [] → (getCorrelationImpact cs techReqs priorities).positiveCount = 0 ∧
      (getCorrelationImpact cs techReqs priorities).negativeCount = 0) ∧
    (cs ≠ [] →
      (1 < (getCorrelationImpact cs techReqs priorities).netImpact →
        (getCorrelationImpact cs techReqs priorities).impact = .Synergistic) ∧
      ((getCorrelationImpact cs techReqs priorities).netImpact < -1 →
        (getCorrelationImpact cs techReqs priorities).impact = .Conflicted) ∧
      (-1 ≤ (getCorrelationImpact cs techReqs priorities).netImpact →
        (getCorrelationImpact cs techReqs priorities).netImpact ≤ 1 →
        (getCorrelationImpact cs techReqs priorities).impact = .Complex)) := by
  simp only [getCorrelationImpact, tallyCorrelations_eq]
  refine ⟨by ring, ?_, ?_, ?_⟩
  · constructor
    · intro hiso
      by_contra hne
      have hlen : cs.length ≠ 0 := fun h => hne (List.length_eq_zero.mp h)
      rw [if_neg hlen] at hiso
      split_ifs at hiso <;> simp at hiso
    · intro h
      subst h
      simp
  · intro h
    subst h
    simp [countCorr]
  · intro hne
    have hlen : cs.length ≠ 0 := fun h => hne (List.length_eq_zero.mp h)
    rw [if_neg hlen]
    refine ⟨fun hgt => ?_, fun hlt => ?_, fun hge hle => ?_⟩
    · rw [if_pos hgt]
    · rw [if_neg (by omega), if_pos hlt]
    · rw [if_neg (by omega), if_neg (by omega)]

/-- Witness for C3: a single strong-positive record gives net impact 2 and
the Synergistic label. -/
theorem getCorrelationImpact_spec_witness :
    (getCorrelationImpact [⟨"a", "b", .STRONG_POSITIVE⟩] [] []).impact = .Synergistic := by
  have h := getCorrelationImpact_spec [⟨"a", "b", .STRONG_POSITIVE⟩] [] []
  exact (h.2.2.2 (by simp)).1 (by rw [h.1]; decide)

/-- Folding max never goes below the initial value. -/
theorem le_foldl_max (l : List ℚ) (init : ℚ) : init ≤ l.foldl max init := by
  induction l generalizing init with
  | nil => simp
  | cons a l ih => exact le_trans (le_max_left init a) (by simpa using ih (max init a))

/-- C10: calculateTargetImpact normalizes each raw score against the
maximum raw score floored at 1, so the denominator is at least 1, the
function is total, and when every raw score is 0 every normalizedPriority
is 0. -/
theorem calculateTargetImpact_spec (data : QFDData) :
    1 ≤ ((calculateTechnicalPriorities data).map fun p => p.score).foldl max 1 ∧
    (calculateTargetImpact data).length = data.technicalRequirements.length ∧
    (∀ i : Nat, ∀ a ∈ (calculateTargetImpact data)[i]?,
      a.normalizedPriority = a.priorityScore /
        (((calculateTechnicalPriorities data).map fun p => p.score).foldl max 1) * 100) ∧
    ((∀ p ∈ calculateTechnicalPriorities data, p.score = 0) →
      ∀ i : Nat, ∀ a ∈ (calculateTargetImpact data)[i]?, a.normalizedPriority = 0) := by
  refine ⟨le_foldl_max _ _, by simp [calculateTargetImpact], ?_, ?_⟩
  · intro i a ha
    simp only [calculateTargetImpact, List.getElem?_map] at ha
    cases h : data.technicalRequirements[i]? with
    | none => rw [h] at ha; simp at ha
    | some t =>
        rw [h] at ha
        simp only [Option.map_some', Option.mem_def, Option.some.injEq] at ha
        subst ha
        rfl
  · intro hz i a ha
    simp only [calculateTargetImpact, List.getElem?_map] at ha
    cases h : data.technicalRequirements[i]? with
    | none => rw [h] at ha; simp at ha
    | some t =>
        rw [h] at ha
        simp only [Option.map_some', Option.mem_def, Option.some.injEq] at ha
        have hps : ((((calculateTechnicalPriorities data).find?
            (fun p => p.id == t.id)).map fun p => p.score).getD 0) = 0 := by
          cases hf : (calculateTechnicalPriorities data).find? (fun p => p.id == t.id) with
          | none => rfl
          | some p => simpa using hz p (List.mem_of_find?_eq_some hf)
        subst ha
        show ((((calculateTechnicalPriorities data).find?
            (fun p => p.id == t.id)).map fun p => p.score).getD 0) /
          (((calculateTechnicalPriorities data).map fun p => p.score).foldl max 1) * 100 = 0
        rw [hps, zero_div, zero_mul]

/-- Witness for C10: a snapshot with one technical requirement and no
relationships has normalizedPriority 0 in its single analysis row. -/
theorem calculateTargetImpact_spec_witness :
    ∃ a ∈ (calculateTargetImpact
      ⟨[⟨"c1", "cust", 5, []⟩], [⟨"t1", "tech", "u", "tg", 3⟩], [], [], []⟩)[0]?,
      a.normalizedPriority = 0 := by
  have hb : 0 < (calculateTargetImpact
      ⟨[⟨"c1", "cust", 5, []⟩], [⟨"t1", "tech", "u", "tg", 3⟩], [], [], []⟩).length := by decide
  have hmem : (calculateTargetImpact
      ⟨[⟨"c1", "cust", 5, []⟩], [⟨"t1", "tech", "u", "tg", 3⟩], [], [], []⟩).get ⟨0, hb⟩ ∈
      (calculateTargetImpact
      ⟨[⟨"c1", "cust", 5, []⟩], [⟨"t1", "tech", "u", "tg", 3⟩], [], [], []⟩)[0]? := by
    rw [List.getElem?_eq_getElem hb]
    simp [List.get_eq_getElem, Option.mem_def]
  have hz : ∀ p ∈ calculateTechnicalPriorities
      ⟨[⟨"c1", "cust", 5, []⟩], [⟨"t1", "tech", "u", "tg", 3⟩], [], [], []⟩, p.score = 0 := by
    intro p hp
    simp [calculateTechnicalPriorities, RelationshipStrength.val] at hp
    subst hp
    norm_num
  exact ⟨_, hmem, (calculateTargetImpact_spec _).2.2.2 hz 0 _ hmem⟩

/-- The matching predicate does not depend on the argument order. -/
theorem pairMatches_swap (corr : TechnicalCorrelation) (a b : String) :
    pairMatches corr a b = pairMatches corr b a := by
  unfold pairMatches
  exact Bool.or_comm _ _

/-- Sorting the two-element pair does not depend on the argument order. -/
theorem sortPair_comm (a b : String) : sortPair a b = sortPair b a := by
  unfold sortPair
  split_ifs with h1 h2 h2
  · rw [le_antisymm h1 h2]
  · rfl
  · rfl
  · exact absurd (le_total a b) (by simp [h1, h2])

/-- The sorted pair is exactly (min, max): smaller identifier first. -/
theorem sortPair_eq_min_max (a b : String) : sortPair a b = (min a b, max a b) := by
  unfold sortPair
  rw [min_def, max_def]
  split_ifs <;> rfl

/-- The canonically ordered record matches the unordered pair. -/
theorem pairMatches_sortPair (a b : String) (c : CorrelationType) :
    pairMatches ⟨(sortPair a b).1, (sortPair a b).2, c⟩ a b = true := by
  unfold sortPair pairMatches
  split_ifs <;> simp

/-- Overwriting the found index with another match keeps exactly one
matching record when there was at most one. -/
theorem countP_set_findIdx (l : List TechnicalCorrelation)
    (p : TechnicalCorrelation → Bool) (i : Nat) (x : TechnicalCorrelation)
    (hfind : l.findIdx? p = some i) (hcount : l.countP p ≤ 1) (hx : p x = true) :
    (l.set i x).countP p = 1 := by
  induction l generalizing i with
  | nil => simp [List.findIdx?_nil] at hfind
  | cons a l ih =>
      rw [List.findIdx?_cons] at hfind
      by_cases ha : p a
      · rw [if_pos ha, Option.some.injEq] at hfind
        subst hfind
        rw [List.countP_cons, if_pos ha] at hcount
        have hl : l.countP p = 0 := by omega
        simp [List.countP_cons, hx, hl]
      · rw [if_neg ha, List.findIdx?_succ] at hfind
        cases hfind0 : l.findIdx? p with
        | none => rw [hfind0] at hfind; simp at hfind
        | some j =>
            rw [hfind0] at hfind
            simp only [Option.map_some', Option.some.injEq] at hfind
            subst hfind
            have hcl : l.countP p ≤ 1 := by
              rw [List.countP_cons, if_neg ha] at hcount
              omega
            have := ih j hfind0 hcl
            simp [List.countP_cons, ha, this]

/-- C9: for distinct ids and a non-NONE value, updating with (a, b) and
with (b, a) produce the same stored list; the stored pair is canonically
ordered (lexicographically smaller id first); the unordered pair ends up
with exactly one matching record when it had at most one; and the
downstream correlation analysis is identical for both argument orders. -/
theorem updateCorrelation_spec (prev : List TechnicalCorrelation) (a b : String)
    (c : CorrelationType) (data : QFDData) (_hab : a ≠ b) (hc : c ≠ .NONE) :
    updateCorrelation prev a b c = updateCorrelation prev b a c ∧
    sortPair a b = (min a b, max a b) ∧
    (prev.countP (fun corr => pairMatches corr a b) ≤ 1 →
      (updateCorrelation prev a b c).countP (fun corr => pairMatches corr a b) = 1) ∧
    calculateCorrelationImpact
        { data with technicalCorrelations := updateCorrelation prev a b c } =
      calculateCorrelationImpact
        { data with technicalCorrelations := updateCorrelation prev b a c } := by
  have hcomm : updateCorrelation prev a b c = updateCorrelation prev b a c := by
    unfold updateCorrelation
    rw [show (fun corr => pairMatches corr b a) = fun corr => pairMatches corr a b from
          funext fun corr => (pairMatches_swap corr a b).symm,
        sortPair_comm a b]
  refine ⟨hcomm, sortPair_eq_min_max a b, ?_, ?_⟩
  · intro hcount
    unfold updateCorrelation
    rw [if_neg hc]
    cases hfind : prev.findIdx? (fun corr => pairMatches corr a b) with
    | none =>
        have hzero : prev.countP (fun corr => pairMatches corr a b) = 0 :=
          List.countP_eq_zero.mpr fun corr hmem => by
            simpa using List.findIdx?_eq_none_iff.mp hfind corr hmem
        rw [List.countP_append, hzero]
        simp [List.countP_cons, pairMatches_sortPair]
    | some i =>
        exact countP_set_findIdx prev _ i _ hfind hcount (pairMatches_sortPair a b c)
  · exact congrArg
      (fun l => calculateCorrelationImpact { data with technicalCorrelations := l }) hcomm

/-- Witness for C9: updating an empty store with the pair (b, a) stores
the single canonical record (a, b). -/
theorem updateCorrelation_spec_witness :
    updateCorrelation [] "b" "a" .POSITIVE = updateCorrelation [] "a" "b" .POSITIVE ∧
    ([] : List TechnicalCorrelation).countP (fun corr => pairMatches corr "b" "a") ≤ 1 ∧
    (updateCorrelation [] "b" "a" .POSITIVE).countP
      (fun corr => pairMatches corr "b" "a") = 1 := by
  have h := updateCorrelation_spec [] "b" "a" .POSITIVE
    ⟨[], [], [], [], []⟩ (by decide) (by decide)
  exact ⟨h.1, by decide, h.2.2.1 (by decide)⟩

end QFD
